import Mathlib

/-!
Shallow embedding of `src/main.py` (Recommendations Wall API).

The program is a FastAPI service with three endpoints:
* `POST /reviews` (`create_review`): pydantic validation of the submitted
  review, then one `put_object` write at key `reviews/<uuid>.json`;
* `GET /top` (`get_top_tags`): `list_objects_v2`, sort by `LastModified`
  descending, take 50, fetch and `json.loads` each (failures skipped),
  aggregate per tag, return top tags, first 10 parsed reviews, and the
  parsed count;
* `GET /health`: a static response (not modelled; no claim touches it).

Modelling conventions:
* JSON documents are the inductive `Json`; JSON numbers are embedded as
  `Int` (every number this program writes is an integer star rating).
* Python `round(total / count, 1)` is embedded exactly, including the
  binary64 float pipeline: the quotient is first rounded to the nearest
  double (53-bit significand, round half to even; exponent unbounded, so
  overflow and subnormals are out of scope), and that double is then
  rounded half-to-even to a whole number of tenths, the lossless decimal
  reading of the result (`roundTenths`; so `4.0` is `40`, and `23 / 20`
  gives `11` just as CPython answers `1.1`).
* The object store and the uuid source are the external collaborators: a
  request handler is a function of the listing / store state, and
  `uuid.uuid4()` is modelled as a fresh-identifier supply (a counter in
  `AppState`), keeping exactly the property the code relies on — distinct
  calls yield distinct identifiers.
* Exceptions become `Except`; the per-object `try/except` in the scan loop
  becomes `Option` bodies (`none` = fetch or parse failure), and the
  outer `try/except` of each handler is the `Except` error of the result.
-/

namespace RecWall

/-- JSON values as produced by `json.loads`; numbers restricted to `Int`. -/
inductive Json where
  | null
  | bool (b : Bool)
  | num (n : Int)
  | str (s : String)
  | obj (fields : List (String × Json))

/-- Hashable JSON scalars: the values Python can use as `dict` keys.
`list`/`dict` values are unhashable and raise `TypeError`. -/
inductive JKey where
  | null
  | bool (b : Bool)
  | num (n : Int)
  | str (s : String)
deriving DecidableEq, Repr

/-- Scalar JSON values convert to dict keys; `obj` does not (unhashable). -/
def Json.toKey? : Json → Option JKey
  | .null => some .null
  | .bool b => some (.bool b)
  | .num n => some (.num n)
  | .str s => some (.str s)
  | .obj _ => none

/-- Key lookup in a parsed JSON object. `json.loads` builds a `dict`, where
a duplicated key keeps the last occurrence, hence the last-match rule. -/
def lookupField : List (String × Json) → String → Option Json
  | [], _ => none
  | (k1, v1) :: rest, k =>
    match lookupField rest k with
    | some v => some v
    | none => if k1 = k then some v1 else none

/-- Python exceptions raised by the aggregation loop. -/
inductive PyErr where
  | keyError (k : String)
  | typeError (msg : String)
deriving DecidableEq, Repr

/-- Embedding of Python `review[k]` subscription: `KeyError` on a missing
dict key, `TypeError` when the value is not a dict. -/
def getItem (j : Json) (k : String) : Except PyErr Json :=
  match j with
  | .obj fields =>
    match lookupField fields k with
    | some v => .ok v
    | none => .error (.keyError k)
  | _ => .error (.typeError "not subscriptable")

/-- Embedding of `int + value` for `total_stars += review[\x27stars\x27]`:
ints add, bools coerce to 0/1, anything else raises `TypeError`. -/
def intAddArg : Json → Except PyErr Int
  | .num n => .ok n
  | .bool b => .ok (if b then 1 else 0)
  | _ => .error (.typeError "unsupported operand type")

/-! ## PII validator (`Review.no_email_or_phone`, main.py lines 43-49) -/

/-- Python `v.replace(' ', '')`. -/
def stripSpaces (v : List Char) : List Char := v.filter (fun c => c ≠ ' ')

/-- Characters stripped by the phone heuristic before the digit test. -/
def phoneStrip : List Char := [' ', '-', '(', ')']

/-- Python `v.replace(' ','').replace('-','').replace('(','').replace(')','')`. -/
def stripPhone (v : List Char) : List Char := v.filter (fun c => !(phoneStrip.contains c))

/-- Python `s.isdigit()`: false on the empty string, else all digits. -/
def pyIsDigit (s : List Char) : Bool := !s.isEmpty && s.all Char.isDigit

/-- The raise condition of `no_email_or_phone` (main.py lines 46-48):
`v` truthy, and the outer and the inner `if` both hold. -/
def no_email_or_phone_raises (v : List Char) : Bool :=
  !v.isEmpty &&
    (v.contains '@' || ((stripSpaces v).take 15).any Char.isDigit) &&
    (v.contains '@' || pyIsDigit ((stripPhone v).take 10))

/-- The rejection condition exactly as the spec words it: contains `@`, or
the first 15 non-space characters contain a digit and the first 10
characters after stripping spaces/hyphens/parentheses are all digits. -/
def specRejectCond (v : List Char) : Bool :=
  v.contains '@' ||
    (((stripSpaces v).take 15).any Char.isDigit &&
      ((stripPhone v).take 10).all Char.isDigit)

/-! ## Review model and validation (main.py lines 37-49) -/

/-- The raw fields of a `POST /reviews` body. -/
structure RawReview where
  title : String
  tag : String
  stars : Int
  comment : Option String

/-- A review that passed pydantic validation. -/
structure Review where
  title : String
  tag : String
  stars : Int
  comment : Option String

/-- Python `len(comment) > 300` check on the optional comment. -/
def commentTooLong : Option String → Bool
  | none => false
  | some c => decide (300 < c.length)

/-- The PII validator applied to the optional comment (`if v` skips `None`;
the empty string is also falsy, which `no_email_or_phone_raises` covers). -/
def commentPii : Option String → Bool
  | none => false
  | some c => no_email_or_phone_raises c.data

/-- Error message of the PII validator. -/
def piiMsg : String := "Please do not include personal information"

/-- Pydantic validation of `Review`: per-field constraints then the
`no_email_or_phone` validator, fields in declaration order
(`title`, `tag`, `stars`, `comment`). -/
def validate_review (raw : RawReview) : Except String Review :=
  if raw.title.length < 1 then .error "title: shorter than min_length"
  else if 100 < raw.title.length then .error "title: longer than max_length"
  else if no_email_or_phone_raises raw.title.data then .error piiMsg
  else if raw.tag.length < 1 then .error "tag: shorter than min_length"
  else if 30 < raw.tag.length then .error "tag: longer than max_length"
  else if no_email_or_phone_raises raw.tag.data then .error piiMsg
  else if raw.stars < 1 then .error "stars: not greater than or equal to 1"
  else if 5 < raw.stars then .error "stars: not less than or equal to 5"
  else if commentTooLong raw.comment then .error "comment: longer than max_length"
  else if commentPii raw.comment then .error piiMsg
  else .ok ⟨raw.title, raw.tag, raw.stars, raw.comment⟩

/-! ## Review writer (`create_review`, main.py lines 350-388) -/

/-- The object store under the `reviews/` bucket prefix: key/document pairs
in write order. -/
structure Store where
  objects : List (String × Json)

/-- Per-process state visible to a request: the store, the fresh-identifier
supply standing in for `uuid.uuid4()`, and whether the external
`put_object` call fails (the storage-failure oracle). -/
structure AppState where
  store : Store
  nextId : Nat
  putFails : Bool

/-- Errors a `POST /reviews` request can signal: a pydantic validation
error (HTTP 422) or the handler's storage `HTTPException` (HTTP 500). -/
inductive ApiError where
  | validation (msg : String)
  | storage (msg : String)

/-- The success body of `POST /reviews`; the opaque uuid is the abstract
identifier token. -/
structure CreateResponse where
  success : Bool
  id : Nat
  message : String
  storage_path : String

/-- The storage key derived from an identifier: `reviews/<id>.json`. -/
def storageKey (rid : Nat) : String := "reviews/" ++ toString rid ++ ".json"

/-- The JSON document `create_review` serializes and uploads. -/
def serializeReview (rid : Nat) (r : Review) (ts : String) : Json :=
  .obj [("id", .str (toString rid)), ("title", .str r.title), ("tag", .str r.tag),
        ("stars", .num r.stars),
        ("comment", match r.comment with | some c => .str c | none => .null),
        ("timestamp", .str ts)]

/-- Embedding of `POST /reviews`: pydantic validation (no handler code runs
and nothing changes on failure), then generate the identifier and
timestamp, build the record and `put_object` it at `reviews/<id>.json`. -/
def create_review (raw : RawReview) (ts : String) (st : AppState) :
    Except ApiError CreateResponse × AppState :=
  match validate_review raw with
  | .error msg => (.error (.validation msg), st)
  | .ok r =>
    let rid := st.nextId
    let key := storageKey rid
    if st.putFails then
      (.error (.storage "Storage error"), { st with nextId := st.nextId + 1 })
    else
      (.ok ⟨true, rid, "Review saved to cloud storage!", key⟩,
        { st with
            store := ⟨st.store.objects ++ [(key, serializeReview rid r ts)]⟩,
            nextId := st.nextId + 1 })

/-! ## Aggregator (`get_top_tags`, main.py lines 391-451) -/

/-- One entry of the `list_objects_v2` listing, together with the outcome
of fetching it: `body = none` models a `get_object` or `json.loads`
failure (caught and skipped by the inner `try/except`). -/
structure StoredObj where
  key : String
  lastModified : Nat
  body : Option Json

/-- The ordering used by `sorted by the LastModified field,
descending store-reported modification time. -/
def modGE (a b : StoredObj) : Prop := b.lastModified ≤ a.lastModified

instance : DecidableRel modGE :=
  fun a b => inferInstanceAs (Decidable (b.lastModified ≤ a.lastModified))

instance : IsTotal StoredObj modGE := ⟨fun a b => le_total b.lastModified a.lastModified⟩

instance : IsTrans StoredObj modGE := ⟨fun _ _ _ h1 h2 => le_trans h2 h1⟩

/-- The listing sorted most-recently-modified first (Python `sorted` is
stable, as is insertion sort). -/
def sortDesc (listing : List StoredObj) : List StoredObj := List.insertionSort modGE listing

/-- The at-most-50 objects the scan visits: `sorted(...)[:50]`. -/
def selectObjs (listing : List StoredObj) : List StoredObj := (sortDesc listing).take 50

/-- The fetch loop over the selected objects: parsed bodies are appended
to `reviews`, failed fetches/parses are logged and skipped. -/
def scanParse (sel : List StoredObj) : List Json := sel.filterMap (fun o => o.body)

/-- Per-tag accumulator: count and total stars. -/
structure Stats where
  count : Nat
  total_stars : Int
deriving DecidableEq, Repr

/-- The two subscriptions the stats loop performs on a parsed review, in
statement order: `review['tag']` (then its use as a dict key), then
`review['stars']` and its addition to the running total. -/
def reviewFields (r : Json) : Except PyErr (JKey × Int) :=
  match getItem r "tag" with
  | .error e => .error e
  | .ok tagv =>
    match tagv.toKey? with
    | none => .error (.typeError "unhashable type")
    | some tag =>
      match getItem r "stars" with
      | .error e => .error e
      | .ok starsv =>
        match intAddArg starsv with
        | .error e => .error e
        | .ok stars => .ok (tag, stars)

/-- Update of the `tag_stats` dict for one review: insertion order is
preserved, an existing key is updated in place. -/
def updateStats : List (JKey × Stats) → JKey → Int → List (JKey × Stats)
  | [], tag, stars => [(tag, ⟨1, stars⟩)]
  | (t, s) :: rest, tag, stars =>
    if t = tag then (t, ⟨s.count + 1, s.total_stars + stars⟩) :: rest
    else (t, s) :: updateStats rest tag stars

/-- The `for review in reviews` stats loop (main.py lines 422-428); any
Python exception it raises propagates to the outer handler. -/
def computeTagStats : List Json → List (JKey × Stats) → Except PyErr (List (JKey × Stats))
  | [], acc => .ok acc
  | r :: rs, acc =>
    match reviewFields r with
    | .error e => .error e
    | .ok (tag, stars) => computeTagStats rs (updateStats acc tag stars)

/-- Round-half-to-even of the exact rational `a / b` (for `b > 0`): the
building block for both binary64 significand rounding and decimal-digit
rounding below. -/
def roundHalfEvenDiv (a b : Int) : Int :=
  let q := Int.fdiv a b
  let r := a - b * q
  if 2 * r < b then q
  else if b < 2 * r then q + 1
  else if q % 2 = 0 then q else q + 1

/-- Decides `2 ^ e ≤ a / c` for naturals `a, c ≥ 1` and an integer `e`. -/
def pow2Le (e : Int) (a c : Nat) : Bool :=
  if 0 ≤ e then decide (2 ^ e.toNat * c ≤ a) else decide (c ≤ 2 ^ (-e).toNat * a)

/-- Floor base-2 logarithm, halving under a fuel bound so that it is
structurally recursive and evaluates inside the kernel; with fuel at
least `n` it agrees with the usual `Nat.log2 n` (the recursion depth of
repeated halving is at most `n`). -/
def log2Fuel : Nat → Nat → Nat
  | 0, _ => 0
  | f + 1, n => if 2 ≤ n then log2Fuel f (n / 2) + 1 else 0

/-- Floor base-2 logarithm of `n`. -/
def natLog2 (n : Nat) : Nat := log2Fuel n n

/-- The binary exponent of `a / c` (for `a, c ≥ 1`): the `e` with
`2 ^ e ≤ a / c < 2 ^ (e + 1)`. `natLog2 a - natLog2 c` is within one of
it, and the `pow2Le` test settles which. -/
def binExp (a c : Nat) : Int :=
  let e0 : Int := (natLog2 a : Int) - (natLog2 c : Int)
  if pow2Le e0 a c then e0 else e0 - 1

/-- Python `round(a / c, 1)` for `a, c ≥ 1`, in tenths. The int division
`a / c` produces the binary64 double nearest the exact quotient (53-bit
significand `m`, rounded half to even; the exponent is taken unbounded,
so double overflow and subnormals are outside the model), and CPython
`round(x, 1)` then rounds the exact value of that double half-to-even to
one decimal digit, i.e. to a whole number of tenths. -/
def pyRoundTenthsPos (a c : Nat) : Int :=
  let e := binExp a c
  if e ≤ 52 then
    let m := roundHalfEvenDiv ((a * 2 ^ (52 - e).toNat : Nat) : Int) (c : Int)
    roundHalfEvenDiv (10 * m) ((2 ^ (52 - e).toNat : Nat) : Int)
  else
    let m := roundHalfEvenDiv (a : Int) ((c * 2 ^ (e - 52).toNat : Nat) : Int)
    10 * m * ((2 ^ (e - 52).toNat : Nat) : Int)

/-- Python `round(total / count, 1)` as the program computes it, as an
integer number of tenths (the lossless decimal reading of the result):
the float quotient rounds through the nearest binary64 double, so at
halfway quotients the answer follows the double, not the exact decimal
(`23 / 20` gives `11`, that is `1.1`, where exact rounding gives `1.2`).
Both operations are sign-symmetric, so negatives reduce to `pyRoundTenthsPos`;
`count = 0` (a `ZeroDivisionError` in Python) is unreachable because every
accumulator is created with count 1. -/
def roundTenths (total : Int) (count : Nat) : Int :=
  if count = 0 then 0
  else if total = 0 then 0
  else if 0 < total then pyRoundTenthsPos total.toNat count
  else -(pyRoundTenthsPos (-total).toNat count)

/-- One entry of `top_tags`; `avg_stars_tenths` is `avg_stars` scaled by
ten (so `4.0` is `40`). -/
structure TagEntry where
  tag : JKey
  count : Nat
  avg_stars_tenths : Int
deriving DecidableEq, Repr

/-- The ordering of the Python sort of tag stats by count,
descending count. -/
def countGE (a b : JKey × Stats) : Prop := b.2.count ≤ a.2.count

instance : DecidableRel countGE :=
  fun a b => inferInstanceAs (Decidable (b.2.count ≤ a.2.count))

instance : IsTotal (JKey × Stats) countGE := ⟨fun a b => le_total b.2.count a.2.count⟩

instance : IsTrans (JKey × Stats) countGE := ⟨fun _ _ _ h1 h2 => le_trans h2 h1⟩

/-- The `top_tags` list comprehension (main.py lines 431-442): stats
sorted by count descending, each with the rounded average. -/
def formatTopTags (stats : List (JKey × Stats)) : List TagEntry :=
  (List.insertionSort countGE stats).map
    (fun p => ⟨p.1, p.2.count, roundTenths p.2.total_stars p.2.count⟩)

/-- The `GET /top` response body. `total_reviews = none` models the field
being absent from the returned JSON object. -/
structure TopResponse where
  top_tags : List TagEntry
  recent_reviews : List Json
  total_reviews : Option Nat

/-- Message of the outer exception handler (main.py lines 450-451). -/
def errDetail : PyErr → String
  | .keyError k => "Error reading storage: " ++ "\x27" ++ k ++ "\x27"
  | .typeError m => "Error reading storage: " ++ m

/-- The tail of `get_top_tags` after the fetch loop: the stats loop (whose
exceptions abort the request through the outer handler) and the response
assembly from the parsed reviews. -/
def buildResponse (reviews : List Json) : Except String TopResponse :=
  match computeTagStats reviews [] with
  | .error e => .error (errDetail e)
  | .ok stats => .ok ⟨formatTopTags stats, reviews.take 10, some reviews.length⟩

/-- Embedding of `GET /top` as a function of the store listing. An empty
listing models `list_objects_v2` returning no `Contents` key, in which
case the handler returns early with only the two empty lists. -/
def get_top_tags (listing : List StoredObj) : Except String TopResponse :=
  match listing with
  | [] => .ok ⟨[], [], none⟩
  | _ => buildResponse (scanParse (selectObjs listing))

/-- Predicate: the `/top` request failed with the generic storage error. -/
def isStorageError : Except String TopResponse → Bool
  | .error _ => true
  | .ok _ => false

/-- Predicate: the `POST /reviews` request was rejected by validation. -/
def isValidationError : Except ApiError CreateResponse → Bool
  | .error (.validation _) => true
  | _ => false

/-- Shape check used by claim C3: the parsed value is not a JSON object,
or lacks the key given. -/
def hasKey (r : Json) (k : String) : Bool :=
  match r with
  | .obj fields => (lookupField fields k).isSome
  | _ => false

/-- A parsed value the stats loop cannot process along the happy path:
not an object, or missing `tag` or `stars`. -/
def badShape (r : Json) : Bool := !hasKey r "tag" || !hasKey r "stars"

/-! ## Concrete evaluations checking the embedding -/

example : no_email_or_phone_raises "a@b".data = true := by decide

example : no_email_or_phone_raises "0123456789".data = true := by decide

example : no_email_or_phone_raises "hello".data = false := by decide

example : no_email_or_phone_raises "12 34-56(78)90".data = true := by decide

example : no_email_or_phone_raises "1 Hundred Years of Solitude".data = false := by decide

example : specRejectCond "1 Hundred Years of Solitude".data = false := by decide

example : no_email_or_phone_raises "".data = false := by decide

example : roundTenths 8 2 = 40 := by decide

example : roundTenths 5 1 = 50 := by decide

example : roundTenths 1 3 = 3 := by decide

example : roundTenths 1 8 = 1 := by decide

example : roundTenths 23 20 = 11 := by decide

example : roundTenths 47 20 = 24 := by decide

example : roundTenths 29 20 = 14 := by decide

example : roundTenths 7 4 = 18 := by decide

example : roundTenths (-23) 20 = -11 := by decide

example :
    get_top_tags
      [⟨"reviews/m1.json", 3, some (.obj [("tag", .str "Movie"), ("stars", .num 5)])⟩,
       ⟨"reviews/m2.json", 2, some (.obj [("tag", .str "Movie"), ("stars", .num 3)])⟩,
       ⟨"reviews/b1.json", 1, some (.obj [("tag", .str "Book"), ("stars", .num 4)])⟩] =
    .ok ⟨[⟨.str "Movie", 2, 40⟩, ⟨.str "Book", 1, 40⟩],
         [.obj [("tag", .str "Movie"), ("stars", .num 5)],
          .obj [("tag", .str "Movie"), ("stars", .num 3)],
          .obj [("tag", .str "Book"), ("stars", .num 4)]],
         some 3⟩ := rfl

example :
    (create_review ⟨"Nice", "Tag", 5, none⟩ "2025-01-01T00:00:00Z" ⟨⟨[]⟩, 0, false⟩).1 =
      .ok ⟨true, 0, "Review saved to cloud storage!", "reviews/0.json"⟩ := rfl

/-! ## Shared helper lemmas -/

lemma scanParse_nil : scanParse (selectObjs []) = [] := rfl

/-- On a non-empty listing, `get_top_tags` is the response built from the
scan of the selected objects. -/
lemma get_top_tags_cons (a : StoredObj) (l : List StoredObj) :
    get_top_tags (a :: l) = buildResponse (scanParse (selectObjs (a :: l))) := rfl

/-! ## Claims -/

/-- C10: if the object-store listing reports zero objects under the
`reviews/` prefix, `GET /top` returns an empty `top_tags` list and an
empty `recent_reviews` list without raising any error. -/
theorem c10_empty_listing_empty_lists_no_error :
    get_top_tags [] = .ok ⟨[], [], none⟩ := rfl

/-- C1 counterexample: on a store listing with zero objects the request
completes successfully, yet the response carries no `total_reviews` field
at all (the early return at main.py line 405 builds a body with only
`top_tags` and `recent_reviews`), contradicting the claim for the
zero-object case it explicitly includes. -/
theorem c1_counterexample :
    get_top_tags [] = .ok ⟨[], [], none⟩ ∧
    (TopResponse.mk [] [] none).total_reviews.isSome = false :=
  ⟨rfl, rfl⟩

/-- C1 (amended): for every successful `GET /top` request over a non-empty
listing, `total_reviews` equals the number of stored objects fetched and
successfully parsed during the request; when the store reports zero
objects the response omits the `total_reviews` field entirely. -/
theorem c1_total_reviews_counts_parsed (listing : List StoredObj) (resp : TopResponse)
    (h : get_top_tags listing = .ok resp) :
    (listing = [] → resp.total_reviews = none) ∧
    (listing ≠ [] → resp.total_reviews = some (scanParse (selectObjs listing)).length) := by
  cases listing with
  | nil =>
    refine ⟨fun _ => ?_, fun hne => absurd rfl hne⟩
    have : resp = ⟨[], [], none⟩ := by
      simpa [get_top_tags] using h.symm
    simp [this]
  | cons a l =>
    refine ⟨fun hcon => by simp at hcon, fun _ => ?_⟩
    rw [get_top_tags_cons] at h
    unfold buildResponse at h
    cases hc : computeTagStats (scanParse (selectObjs (a :: l))) [] with
    | error e => rw [hc] at h; exact absurd h (by simp)
    | ok stats =>
      rw [hc] at h
      have : resp = ⟨formatTopTags stats, (scanParse (selectObjs (a :: l))).take 10,
          some (scanParse (selectObjs (a :: l))).length⟩ := by
        simpa using h.symm
      simp [this]

/-- Listing used by the witnesses of C1 and C9: one well-formed stored
review. -/
def oneGoodListing : List StoredObj :=
  [⟨"reviews/a.json", 1, some (.obj [("tag", .str "T"), ("stars", .num 5)])⟩]

/-- Witness for C1: on a concrete one-object listing the parsed count is
reported. -/
theorem c1_witness :
    (TopResponse.mk [⟨.str "T", 1, 50⟩]
        [.obj [("tag", .str "T"), ("stars", .num 5)]] (some 1)).total_reviews =
      some (scanParse (selectObjs oneGoodListing)).length :=
  (c1_total_reviews_counts_parsed oneGoodListing _ rfl).2 (List.cons_ne_nil _ _)

/-- C9: `recent_reviews` holds at most 10 entries, and is exactly the
first 10 of the successfully parsed reviews taken in descending
store-reported modification time (the same ordering and 50-object
selection the scan uses). -/
theorem c9_recent_reviews_first_ten (listing : List StoredObj) (resp : TopResponse)
    (h : get_top_tags listing = .ok resp) :
    resp.recent_reviews.length ≤ 10 ∧
    resp.recent_reviews = (scanParse (selectObjs listing)).take 10 := by
  cases listing with
  | nil =>
    have : resp = ⟨[], [], none⟩ := by
      simpa [get_top_tags] using h.symm
    simp [this, scanParse_nil]
  | cons a l =>
    rw [get_top_tags_cons] at h
    unfold buildResponse at h
    cases hc : computeTagStats (scanParse (selectObjs (a :: l))) [] with
    | error e => rw [hc] at h; exact absurd h (by simp)
    | ok stats =>
      rw [hc] at h
      have : resp = ⟨formatTopTags stats, (scanParse (selectObjs (a :: l))).take 10,
          some (scanParse (selectObjs (a :: l))).length⟩ := by
        simpa using h.symm
      subst this
      exact ⟨List.length_take_le 10 (scanParse (selectObjs (a :: l))), rfl⟩

/-- Whether the stats loop can process a parsed review depends on that
review alone: a review of bad shape makes its `reviewFields` step raise. -/
lemma reviewFields_error_of_badShape (r : Json) (h : badShape r = true) :
    ∃ e, reviewFields r = .error e := by
  cases r with
  | obj fields =>
    cases htag : lookupField fields "tag" with
    | none => exact ⟨.keyError "tag", by simp [reviewFields, getItem, htag]⟩
    | some tagv =>
      have hstars : lookupField fields "stars" = none := by
        simp [badShape, hasKey, htag] at h
        cases hs : lookupField fields "stars" with
        | none => rfl
        | some v => rw [hs] at h; simp at h
      cases hk : tagv.toKey? with
      | none => exact ⟨.typeError "unhashable type", by simp [reviewFields, getItem, htag, hk]⟩
      | some k =>
        exact ⟨.keyError "stars", by simp [reviewFields, getItem, htag, hk, hstars]⟩
  | null => exact ⟨.typeError "not subscriptable", by simp [reviewFields, getItem]⟩
  | bool b => exact ⟨.typeError "not subscriptable", by simp [reviewFields, getItem]⟩
  | num n => exact ⟨.typeError "not subscriptable", by simp [reviewFields, getItem]⟩
  | str s => exact ⟨.typeError "not subscriptable", by simp [reviewFields, getItem]⟩

/-- If any review of the list makes its per-review step raise, the whole
stats loop raises, whatever the accumulator. -/
lemma computeTagStats_error_of_mem (r : Json) (hre : ∃ e, reviewFields r = .error e) :
    ∀ (rs : List Json) (acc : List (JKey × Stats)), r ∈ rs →
      ∃ e2, computeTagStats rs acc = .error e2 := by
  intro rs
  induction rs with
  | nil => intro acc hmem; exact absurd hmem (List.not_mem_nil r)
  | cons x xs ih =>
    intro acc hmem
    cases hx : reviewFields x with
    | error e => exact ⟨e, by simp [computeTagStats, hx]⟩
    | ok p =>
      rcases List.mem_cons.mp hmem with rfl | hmem2
      · obtain ⟨e, he⟩ := hre
        rw [hx] at he
        exact absurd he (by simp)
      · obtain ⟨e2, he2⟩ := ih (updateStats acc p.1 p.2) hmem2
        exact ⟨e2, by simp [computeTagStats, hx, he2]⟩

/-- C3: a stored object that is fetched and parses as JSON but whose value
is not a JSON object carrying both a `tag` and a `stars` key is not
skipped the way a parse failure is: the whole `/top` request fails with
the storage error response, with no partial aggregate. -/
theorem c3_malformed_value_fails_whole_request (listing : List StoredObj) (r : Json)
    (hmem : r ∈ scanParse (selectObjs listing)) (hbad : badShape r = true) :
    isStorageError (get_top_tags listing) = true := by
  cases listing with
  | nil => rw [scanParse_nil] at hmem; exact absurd hmem (List.not_mem_nil r)
  | cons a l =>
    obtain ⟨e2, he2⟩ :=
      computeTagStats_error_of_mem r (reviewFields_error_of_badShape r hbad)
        (scanParse (selectObjs (a :: l))) [] hmem
    rw [get_top_tags_cons]
    unfold buildResponse
    rw [he2]
    rfl

/-- Listing used by the C3 witness: a single well-parsed object whose
value is missing the `stars` key. -/
def missingStarsListing : List StoredObj :=
  [⟨"reviews/x.json", 1, some (.obj [("tag", .str "T")])⟩]

/-- Witness for C3: the missing-`stars` object makes the whole concrete
request error out. -/
theorem c3_witness : isStorageError (get_top_tags missingStarsListing) = true :=
  c3_malformed_value_fails_whole_request missingStarsListing (.obj [("tag", .str "T")])
    (List.Mem.head _) (by decide)

/-- C5: an object whose fetch or JSON parse fails contributes nothing to
the scan, every other selected object still contributes its parsed body,
and the request outcome is the same as if the failed object were not in
the scan at all. -/
theorem c5_failed_object_skipped_alone (pre post : List StoredObj) (o : StoredObj)
    (hfail : o.body = none) :
    scanParse (pre ++ o :: post) = scanParse (pre ++ post) ∧
    buildResponse (scanParse (pre ++ o :: post)) = buildResponse (scanParse (pre ++ post)) ∧
    ∀ o2 ∈ pre ++ post, ∀ j : Json, o2.body = some j →
      j ∈ scanParse (pre ++ o :: post) := by
  have h1 : scanParse (pre ++ o :: post) = scanParse (pre ++ post) := by
    simp [scanParse, List.filterMap_append, List.filterMap_cons, hfail]
  refine ⟨h1, by rw [h1], ?_⟩
  intro o2 hmem j hj
  rw [h1]
  exact List.mem_filterMap.mpr ⟨o2, hmem, hj⟩

/-- Witness for C5: dropping the concrete failed object leaves the parsed
reviews unchanged. -/
theorem c5_witness :
    scanParse ([⟨"reviews/a.json", 3, some (.num 1)⟩] ++
        (⟨"reviews/b.json", 2, none⟩ : StoredObj) :: [⟨"reviews/c.json", 1, some (.num 2)⟩]) =
      scanParse ([⟨"reviews/a.json", 3, some (.num 1)⟩] ++
        [⟨"reviews/c.json", 1, some (.num 2)⟩]) :=
  (c5_failed_object_skipped_alone _ _ _ rfl).1

/-- C8: the scan fetches at most 50 objects; they are drawn from a
reordering of the listing, and every selected object has a modification
time at least that of every listed object left beyond the cut, even when
the listing holds more than 50 objects. -/
theorem c8_scan_caps_fifty_most_recent (listing : List StoredObj) (x y : StoredObj)
    (hx : x ∈ selectObjs listing) (hy : y ∈ (sortDesc listing).drop 50) :
    (selectObjs listing).length ≤ 50 ∧
    List.Perm (sortDesc listing) listing ∧
    y.lastModified ≤ x.lastModified := by
  refine ⟨List.length_take_le 50 (sortDesc listing), List.perm_insertionSort modGE listing, ?_⟩
  have hs : List.Pairwise modGE (sortDesc listing) :=
    List.sorted_insertionSort modGE listing
  rw [← List.take_append_drop 50 (sortDesc listing)] at hs
  exact (List.pairwise_append.mp hs).2.2 x hx y hy

/-- A 51-object listing exercising the 50-object cut. -/
def bigListing : List StoredObj := (List.range 51).map (fun i => ⟨"k", i, none⟩)

/-- Witness for C8: in a 51-object listing, the dropped oldest object is
no newer than the newest selected one. -/
theorem c8_witness :
    (selectObjs bigListing).length ≤ 50 ∧
    List.Perm (sortDesc bigListing) bigListing ∧
    (⟨"k", 0, none⟩ : StoredObj).lastModified ≤ (⟨"k", 50, none⟩ : StoredObj).lastModified := by
  refine c8_scan_caps_fifty_most_recent bigListing ⟨"k", 50, none⟩ ⟨"k", 0, none⟩ ?_ ?_
  · have e : selectObjs bigListing = ⟨"k", 50, none⟩ :: (selectObjs bigListing).tail := rfl
    rw [e]
    exact List.Mem.head _
  · have e : (sortDesc bigListing).drop 50 = [⟨"k", 0, none⟩] := rfl
    rw [e]
    exact List.Mem.head _

/-- The stored reviews of the worked example in the spec: two Movie
reviews (5 and 3 stars) and one Book review (4 stars), most recent
first. -/
def exampleListing : List StoredObj :=
  [⟨"reviews/m1.json", 3, some (.obj [("tag", .str "Movie"), ("stars", .num 5)])⟩,
   ⟨"reviews/m2.json", 2, some (.obj [("tag", .str "Movie"), ("stars", .num 3)])⟩,
   ⟨"reviews/b1.json", 1, some (.obj [("tag", .str "Book"), ("stars", .num 4)])⟩]

/-- One-star and two-star stored review bodies under a shared tag. -/
def oneStarBody : Json := .obj [("tag", .str "T"), ("stars", .num 1)]

/-- Companion two-star body of `oneStarBody`. -/
def twoStarBody : Json := .obj [("tag", .str "T"), ("stars", .num 2)]

/-- A reachable store: twenty same-tag reviews totalling 23 stars
(seventeen 1-star, three 2-star), most recent first. -/
def halfwayListing : List StoredObj :=
  (List.range 20).map
    (fun i => ⟨"k", 20 - i, some (if i < 17 then oneStarBody else twoStarBody)⟩)

/-- C4 counterexample: on twenty same-tag reviews totalling 23 stars the
program reports `avg_stars` 1.1 (11 tenths), because the binary64 double
nearest `23 / 20` lies below the halfway point `1.15`, while rounding the
exact quotient to one decimal place yields 1.2 (12 tenths, under
round-half-even as under round-half-up) — so `avg_stars` is not the
per-tag star sum divided by the count rounded to one decimal place. -/
theorem c4_counterexample :
    get_top_tags halfwayListing =
      .ok ⟨[⟨.str "T", 20, 11⟩], List.replicate 10 oneStarBody, some 20⟩ ∧
    roundHalfEvenDiv (10 * 23) 20 = 12 :=
  ⟨rfl, rfl⟩

/-- C4 (amended): `top_tags` is sorted by per-tag count in descending
order; every entry arises from a per-tag accumulator with `avg_stars` the
quotient of the star total by the count rounded to one decimal (in
tenths) the way Python computes it — on the binary64 double nearest the
quotient, which agrees with exact one-decimal rounding except at halfway
quotients, where the double decides (23/20 gives 1.1); and on exactly the
Movie/Movie/Book example the result is Movie with count 2 and average 4.0
first, then Book with count 1 and average 4.0. -/
theorem c4_top_tags_sorted_counts_rounded_avgs :
    (∀ stats : List (JKey × Stats),
      (formatTopTags stats).Pairwise (fun a b => b.count ≤ a.count)) ∧
    (∀ stats : List (JKey × Stats), ∀ e ∈ formatTopTags stats,
      ∃ p ∈ stats, e = ⟨p.1, p.2.count, roundTenths p.2.total_stars p.2.count⟩) ∧
    get_top_tags exampleListing =
      .ok ⟨[⟨.str "Movie", 2, 40⟩, ⟨.str "Book", 1, 40⟩],
           [.obj [("tag", .str "Movie"), ("stars", .num 5)],
            .obj [("tag", .str "Movie"), ("stars", .num 3)],
            .obj [("tag", .str "Book"), ("stars", .num 4)]],
           some 3⟩ := by
  refine ⟨?_, ?_, rfl⟩
  · intro stats
    have hs : List.Pairwise countGE (List.insertionSort countGE stats) :=
      List.sorted_insertionSort countGE stats
    exact hs.map _ (fun a b hab => hab)
  · intro stats e he
    rcases List.mem_map.mp he with ⟨p, hp, rfl⟩
    exact ⟨p, (List.mem_insertionSort countGE).mp hp, rfl⟩

/-- Witness for C4: a concrete formatted entry traces back to its
accumulator, with the average stated by the rounding rule. -/
theorem c4_witness :
    ∃ p ∈ [((JKey.str "A"), (⟨1, 5⟩ : Stats))],
      (⟨JKey.str "A", 1, 50⟩ : TagEntry) =
        ⟨p.1, p.2.count, roundTenths p.2.total_stars p.2.count⟩ :=
  c4_top_tags_sorted_counts_rounded_avgs.2.1 [(JKey.str "A", ⟨1, 5⟩)]
    ⟨JKey.str "A", 1, 50⟩ (List.Mem.head _)

/-- Digits survive the phone-character stripping. -/
lemma digit_not_stripped (c : Char) (h : c.isDigit = true) : c ∉ phoneStrip := by
  intro hmem
  simp [phoneStrip] at hmem
  rcases hmem with rfl | rfl | rfl | rfl <;> revert h <;> decide

/-- If the space-stripped prefix shows a digit, the phone-stripped string
is non-empty, and so is its 10-character prefix. -/
lemma stripPhone_take_nonempty (v : List Char)
    (hb : ((stripSpaces v).take 15).any Char.isDigit = true) :
    ((stripPhone v).take 10).isEmpty = false := by
  obtain ⟨c, hc, hcd⟩ := List.any_eq_true.mp hb
  have hcv : c ∈ v := List.mem_of_mem_filter (List.mem_of_mem_take hc)
  have hcp : c ∈ stripPhone v :=
    List.mem_filter.mpr ⟨hcv, by simpa using digit_not_stripped c hcd⟩
  cases hsp : stripPhone v with
  | nil => rw [hsp] at hcp; exact absurd hcp (List.not_mem_nil c)
  | cons d ds => simp [hsp]

/-- Any value containing an at-sign trips the PII validator. -/
lemma raises_of_contains_at (v : List Char) (h : v.contains '@' = true) :
    no_email_or_phone_raises v = true := by
  cases v with
  | nil => exact absurd h (by decide)
  | cons c cs =>
    simp at h
    simp [no_email_or_phone_raises]
    exact ⟨Or.inl h, Or.inl h⟩

/-- C2: on every present (non-empty) submitted value the validator raises
exactly under the spec condition — an at-sign, or a digit among the first
15 space-stripped characters together with an all-digit 10-character
phone-stripped prefix; in particular a submission whose title contains an
at-sign is rejected. -/
theorem c2_pii_reject_iff :
    (∀ v : List Char, v ≠ [] →
      no_email_or_phone_raises v = specRejectCond v) ∧
    (∀ raw : RawReview, raw.title.data.contains '@' = true →
      ∃ e, validate_review raw = .error e) := by
  constructor
  · intro v hv
    have hne : v.isEmpty = false := by
      cases v with
      | nil => exact absurd rfl hv
      | cons c cs => rfl
    by_cases ha : '@' ∈ v
    · simp [no_email_or_phone_raises, specRejectCond, ha, hne]
    · cases hb : ((stripSpaces v).take 15).any Char.isDigit with
      | false => simp [no_email_or_phone_raises, specRejectCond, ha, hb, hne]
      | true =>
        have ht := stripPhone_take_nonempty v hb
        simp [no_email_or_phone_raises, specRejectCond, ha, hb, hne, pyIsDigit, ht]
  · intro raw hat
    unfold validate_review
    by_cases h1 : raw.title.length < 1
    · rw [if_pos h1]; exact ⟨_, rfl⟩
    rw [if_neg h1]
    by_cases h2 : 100 < raw.title.length
    · rw [if_pos h2]; exact ⟨_, rfl⟩
    rw [if_neg h2]
    rw [if_pos (raises_of_contains_at _ hat)]
    exact ⟨_, rfl⟩

/-- Witness for C2: on a concrete email-like value the raise condition and
the spec condition agree. -/
theorem c2_witness :
    no_email_or_phone_raises "a@b".data = specRejectCond "a@b".data :=
  c2_pii_reject_iff.1 "a@b".data (by decide)

/-- Validation success implies every pydantic field constraint held. -/
lemma validate_ok_bounds (raw : RawReview) (r : Review)
    (h : validate_review raw = .ok r) :
    1 ≤ raw.title.length ∧ raw.title.length ≤ 100 ∧
    1 ≤ raw.tag.length ∧ raw.tag.length ≤ 30 ∧
    1 ≤ raw.stars ∧ raw.stars ≤ 5 ∧
    ∀ c, raw.comment = some c → c.length ≤ 300 := by
  unfold validate_review at h
  by_cases h1 : raw.title.length < 1
  · rw [if_pos h1] at h; exact absurd h (by simp)
  rw [if_neg h1] at h
  by_cases h2 : 100 < raw.title.length
  · rw [if_pos h2] at h; exact absurd h (by simp)
  rw [if_neg h2] at h
  by_cases h3 : no_email_or_phone_raises raw.title.data = true
  · rw [if_pos h3] at h; exact absurd h (by simp)
  rw [if_neg h3] at h
  by_cases h4 : raw.tag.length < 1
  · rw [if_pos h4] at h; exact absurd h (by simp)
  rw [if_neg h4] at h
  by_cases h5 : 30 < raw.tag.length
  · rw [if_pos h5] at h; exact absurd h (by simp)
  rw [if_neg h5] at h
  by_cases h6 : no_email_or_phone_raises raw.tag.data = true
  · rw [if_pos h6] at h; exact absurd h (by simp)
  rw [if_neg h6] at h
  by_cases h7 : raw.stars < 1
  · rw [if_pos h7] at h; exact absurd h (by simp)
  rw [if_neg h7] at h
  by_cases h8 : 5 < raw.stars
  · rw [if_pos h8] at h; exact absurd h (by simp)
  rw [if_neg h8] at h
  by_cases h9 : commentTooLong raw.comment = true
  · rw [if_pos h9] at h; exact absurd h (by simp)
  rw [if_neg h9] at h
  refine ⟨by omega, by omega, by omega, by omega, by omega, by omega, ?_⟩
  intro c hc
  rw [hc] at h9
  simp [commentTooLong] at h9
  omega

/-- C6: a submission with out-of-range stars, an out-of-bounds title or
tag length, or an over-long comment is rejected with a validation error,
and the store (indeed the whole application state) is left unchanged: no
`put_object` happens. -/
theorem c6_invalid_rejected_without_write (raw : RawReview) (ts : String) (st : AppState)
    (h : ¬(1 ≤ raw.stars ∧ raw.stars ≤ 5) ∨
         ¬(1 ≤ raw.title.length ∧ raw.title.length ≤ 100) ∨
         ¬(1 ≤ raw.tag.length ∧ raw.tag.length ≤ 30) ∨
         (∃ c, raw.comment = some c ∧ 300 < c.length)) :
    isValidationError (create_review raw ts st).1 = true ∧
    (create_review raw ts st).2 = st := by
  cases hv : validate_review raw with
  | error msg => simp [create_review, hv, isValidationError]
  | ok r =>
    obtain ⟨ht1, ht2, hg1, hg2, hs1, hs2, hc⟩ := validate_ok_bounds raw r hv
    rcases h with h | h | h | ⟨c, hc1, hc2⟩
    · exact absurd ⟨hs1, hs2⟩ h
    · exact absurd ⟨ht1, ht2⟩ h
    · exact absurd ⟨hg1, hg2⟩ h
    · have := hc c hc1
      omega

/-- Witness for C6: a zero-star submission is rejected and writes
nothing. -/
theorem c6_witness :
    isValidationError (create_review ⟨"Nice", "Tag", 0, none⟩ "ts" ⟨⟨[]⟩, 0, false⟩).1 = true ∧
    (create_review ⟨"Nice", "Tag", 0, none⟩ "ts" ⟨⟨[]⟩, 0, false⟩).2 = ⟨⟨[]⟩, 0, false⟩ :=
  c6_invalid_rejected_without_write ⟨"Nice", "Tag", 0, none⟩ "ts" ⟨⟨[]⟩, 0, false⟩
    (Or.inl (by decide))

/-- C7: a successful submission answers `success`, the fresh identifier,
and the storage path `reviews/<id>.json`; the one object written lands at
exactly that key, and a second successful call returns a different
identifier. -/
theorem c7_success_fresh_id_exact_key (raw1 raw2 : RawReview) (ts1 ts2 : String)
    (st : AppState) (r1 r2 : CreateResponse)
    (h1 : (create_review raw1 ts1 st).1 = .ok r1)
    (h2 : (create_review raw2 ts2 (create_review raw1 ts1 st).2).1 = .ok r2) :
    r1.success = true ∧
    r1.storage_path = "reviews/" ++ toString r1.id ++ ".json" ∧
    (∃ body, (create_review raw1 ts1 st).2.store.objects =
      st.store.objects ++ [(r1.storage_path, body)]) ∧
    r2.id ≠ r1.id := by
  cases hv1 : validate_review raw1 with
  | error msg => simp [create_review, hv1] at h1
  | ok rev1 =>
    cases hpf : st.putFails with
    | true => simp [create_review, hv1, hpf] at h1
    | false =>
      have hst1 : (create_review raw1 ts1 st).2 =
          ⟨⟨st.store.objects ++
              [(storageKey st.nextId, serializeReview st.nextId rev1 ts1)]⟩,
            st.nextId + 1, st.putFails⟩ := by
        simp [create_review, hv1, hpf]
      simp only [create_review, hv1, hpf] at h1
      rw [hst1] at h2
      cases hv2 : validate_review raw2 with
      | error msg => simp [create_review, hv2] at h2
      | ok rev2 =>
        simp only [create_review, hv2, hpf] at h2
        simp only [Bool.false_eq_true, if_false, Except.ok.injEq] at h1 h2
        subst h1
        subst h2
        refine ⟨rfl, rfl, ⟨serializeReview st.nextId rev1 ts1, by rw [hst1]⟩, by simp⟩

/-- Witness for C7: two concrete successful submissions get distinct
identifiers, and the first write lands at its announced key. -/
theorem c7_witness :
    (⟨true, 0, "Review saved to cloud storage!", "reviews/0.json"⟩ :
        CreateResponse).success = true ∧
    (⟨true, 0, "Review saved to cloud storage!", "reviews/0.json"⟩ :
        CreateResponse).storage_path = "reviews/" ++ toString 0 ++ ".json" ∧
    (∃ body,
      (create_review ⟨"Nice", "Tag", 5, none⟩ "t1" ⟨⟨[]⟩, 0, false⟩).2.store.objects =
        (⟨⟨[]⟩, 0, false⟩ : AppState).store.objects ++
          [((⟨true, 0, "Review saved to cloud storage!", "reviews/0.json"⟩ :
              CreateResponse).storage_path, body)]) ∧
    (⟨true, 1, "Review saved to cloud storage!", "reviews/1.json"⟩ :
        CreateResponse).id ≠
      (⟨true, 0, "Review saved to cloud storage!", "reviews/0.json"⟩ :
        CreateResponse).id :=
  c7_success_fresh_id_exact_key ⟨"Nice", "Tag", 5, none⟩ ⟨"Cool", "Tag", 4, none⟩
    "t1" "t2" ⟨⟨[]⟩, 0, false⟩ _ _ rfl rfl

/-- Witness for C9 at the one-object listing. -/
theorem c9_witness :
    (TopResponse.mk [⟨.str "T", 1, 50⟩]
        [.obj [("tag", .str "T"), ("stars", .num 5)]] (some 1)).recent_reviews.length ≤ 10 ∧
    (TopResponse.mk [⟨.str "T", 1, 50⟩]
        [.obj [("tag", .str "T"), ("stars", .num 5)]] (some 1)).recent_reviews =
      (scanParse (selectObjs oneGoodListing)).take 10 :=
  c9_recent_reviews_first_ten oneGoodListing _ rfl

end RecWall
